/-
Verification of the playwright-mcp core against its design document.

This file shallowly embeds the relevant parts of the source:
  * `src/tools/` page-change detector (`detect_page_change` tool):
    `calculateUrlChangeScore`, `calculateNumericalChanges`,
    `calculateWeightedScore`, `determineChangeType`, `detectPageChange`.
  * `src/tools/` discover tool (`browser_discover_interactive_refs`).
  * `src/tools/attributes.ts` (structured-payload revision):
    `browser_get_element_attributes` and `browser_get_bulk_attributes`.
  * `src/tools/snapshot.ts` zod element schemas for the act tools.

JavaScript numbers are embedded as rationals (`ℚ`), machine counts as `Nat`,
JS strings as `String`, nullable values as `Option`, and thrown/caught errors
as explicit sum types.  The browser engine (URL parsing, locator evaluation)
is an external collaborator and is passed in as an explicit parameter or
modelled from the design document where so noted.
-/
import Mathlib

namespace PlaywrightMcp

/-! ## Page-change detector (detect_page_change tool)

Embeds the `PageState` fingerprint and the scoring pipeline. -/

/-- `PageState` from the detector module: the numeric fingerprint collected by
`collectPageState` via `page.evaluate`. -/
structure PageState where
  url : String
  title : String
  elemCount : Nat
  domStructureHash : String
  formElementCount : Nat
  linkElementCount : Nat
  headingCount : Nat
deriving Repr, DecidableEq

/-- The six change-component scores returned by `calculateNumericalChanges`. -/
structure Components where
  url : ℚ
  title : ℚ
  elem : ℚ
  domStructure : ℚ
  formElements : ℚ
  linkElements : ℚ
deriving Repr, DecidableEq

/-- A full set of component weights (shape of `DEFAULT_WEIGHTS`). -/
structure Weights where
  url : ℚ
  title : ℚ
  elem : ℚ
  domStructure : ℚ
  formElements : ℚ
  linkElements : ℚ
deriving Repr, DecidableEq

/-- `DEFAULT_WEIGHTS` from the detector module. -/
def DEFAULT_WEIGHTS : Weights :=
  { url := 4/10, title := 15/100, elem := 15/100,
    domStructure := 2/10, formElements := 5/100, linkElements := 5/100 }

/-- The optional per-call weight overrides (`params.weights`, each field
optional in the zod schema). -/
structure WeightsOverride where
  url : Option ℚ := none
  title : Option ℚ := none
  elem : Option ℚ := none
  domStructure : Option ℚ := none
  formElements : Option ℚ := none
  linkElements : Option ℚ := none
deriving Repr, DecidableEq

/-- The JS spread-merge `{ ...DEFAULT_WEIGHTS, ...params.weights }`: a field
present in the override replaces the default. -/
def mergeWeights (ov : WeightsOverride) : Weights :=
  { url := ov.url.getD DEFAULT_WEIGHTS.url,
    title := ov.title.getD DEFAULT_WEIGHTS.title,
    elem := ov.elem.getD DEFAULT_WEIGHTS.elem,
    domStructure := ov.domStructure.getD DEFAULT_WEIGHTS.domStructure,
    formElements := ov.formElements.getD DEFAULT_WEIGHTS.formElements,
    linkElements := ov.linkElements.getD DEFAULT_WEIGHTS.linkElements }

/-- Result of `new URL(s)` in the browser engine: the components the detector
reads (`hostname`, `pathname`, `search`, `hash`).  The parser itself is the
engine's, hence supplied as a parameter of type `String → Option ParsedUrl`
(`none` models the constructor throwing). -/
structure ParsedUrl where
  hostname : String
  pathname : String
  search : String
  hash : String
deriving Repr, DecidableEq

/-- JS `String.prototype.split` with a one-character separator, over the
character list (structurally recursive so that proofs can evaluate it):
`"/a/b".split('/') = ["", "a", "b"]`, `"".split('/') = [""]`. -/
def splitOnChar (c : Char) : List Char → List (List Char)
  | [] => [[]]
  | x :: xs =>
      let r := splitOnChar c xs
      if x = c then [] :: r
      else
        match r with
        | [] => [[x]]
        | y :: ys => (x :: y) :: ys

/-- JS `String.prototype.trim`: strip leading and trailing whitespace. -/
def trimString (s : String) : String :=
  String.mk (((s.toList.dropWhile (fun c => c.isWhitespace)).reverse.dropWhile
    (fun c => c.isWhitespace)).reverse)

/-- JS `String.prototype.slice(0, n)`: the first `n` characters. -/
def takeChars (n : Nat) (s : String) : String :=
  String.mk (s.toList.take n)

/-- `pathname.split('/').filter(p => p)`: split on `/` and drop falsy (empty)
segments. -/
def splitSegments (pathname : String) : List String :=
  ((splitOnChar '/' pathname.toList).map (fun l => String.mk l)).filter
    (fun p => p ≠ "")

/-- `calculateUrlChangeScore(previousUrl, currentUrl)`; `parse` is the
engine's `new URL`.  Mirrors the source line by line:
empty (falsy) argument → 1.0; parse failure → try/catch fallback comparing the
raw strings; different hostname → 1.0; identical strings → 0.0; empty union of
path-segment sets → 0.0; otherwise
`min(1, (1 − jaccard) + 0.3·[search ≠] + 0.1·[hash ≠])`. -/
def calculateUrlChangeScore (parse : String → Option ParsedUrl)
    (previousUrl currentUrl : String) : ℚ :=
  if previousUrl = "" ∨ currentUrl = "" then 1 else
  match parse previousUrl, parse currentUrl with
  | some prev, some curr =>
      if prev.hostname ≠ curr.hostname then 1
      else if previousUrl = currentUrl then 0
      else
        let prevParts := splitSegments prev.pathname
        let currParts := splitSegments curr.pathname
        let allParts := (prevParts ++ currParts).dedup
        let commonParts := (prevParts.filter (fun p => p ∈ currParts)).dedup
        if allParts.length = 0 then 0
        else
          let pathSimilarity : ℚ := (commonParts.length : ℚ) / (allParts.length : ℚ)
          let pathChangeScore : ℚ := 1 - pathSimilarity
          let queryChanged : ℚ := if prev.search ≠ curr.search then 3/10 else 0
          let hashChanged : ℚ := if prev.hash ≠ curr.hash then 1/10 else 0
          min 1 (pathChangeScore + queryChanged + hashChanged)
  | _, _ => if previousUrl = currentUrl then 0 else 1

/-- `calculateNumericalChanges(previous, current)`: the six component scores.
`previous = none` is the first-call branch where everything scores 1.0. -/
def calculateNumericalChanges (parse : String → Option ParsedUrl)
    (previous : Option PageState) (current : PageState) : Components :=
  match previous with
  | none =>
      { url := 1, title := 1, elem := 1, domStructure := 1,
        formElements := 1, linkElements := 1 }
  | some prev =>
      let urlScore := calculateUrlChangeScore parse prev.url current.url
      let titleScore : ℚ := if prev.title ≠ current.title then 1 else 0
      let elemCountChange : ℚ :=
        if prev.elemCount = 0 then 1
        else min 1 ((((current.elemCount : ℤ) - (prev.elemCount : ℤ)).natAbs : ℚ)
          / (prev.elemCount : ℚ))
      let domStructureScore : ℚ :=
        if prev.domStructureHash ≠ current.domStructureHash then 1 else 0
      let formElementsScore : ℚ :=
        if prev.formElementCount = 0 ∧ current.formElementCount = 0 then 0
        else if prev.formElementCount = 0 then
          (if current.formElementCount > 0 then 1 else 0)
        else min 1 ((((current.formElementCount : ℤ)
          - (prev.formElementCount : ℤ)).natAbs : ℚ) / (prev.formElementCount : ℚ))
      let linkElementsScore : ℚ :=
        if prev.linkElementCount = 0 ∧ current.linkElementCount = 0 then 0
        else if prev.linkElementCount = 0 then
          (if current.linkElementCount > 0 then 1 else 0)
        else min 1 ((((current.linkElementCount : ℤ)
          - (prev.linkElementCount : ℤ)).natAbs : ℚ) / (prev.linkElementCount : ℚ))
      { url := urlScore, title := titleScore, elem := elemCountChange,
        domStructure := domStructureScore, formElements := formElementsScore,
        linkElements := linkElementsScore }

/-- `calculateWeightedScore(components, weights)`. -/
def calculateWeightedScore (components : Components) (weights : Weights) : ℚ :=
  weights.url * components.url +
  weights.title * components.title +
  weights.elem * components.elem +
  weights.domStructure * components.domStructure +
  weights.formElements * components.formElements +
  weights.linkElements * components.linkElements

/-- `determineChangeType(components)`: first-match-wins classification. -/
def determineChangeType (components : Components) : String :=
  if components.url > 7/10 then "navigation"
  else if components.domStructure > 5/10 ∨ components.formElements > 5/10 then "structural"
  else if components.title > 0 ∨ components.elem > 3/10 then "content"
  else "none"

/-- Parameters of a `detect_page_change` call after zod parsing
(`threshold` defaulted to 0.30, `seed` defaulted to `false`). -/
structure DetectParams where
  threshold : ℚ := 3/10
  weights : WeightsOverride := {}
  seed : Bool := false
deriving Repr, DecidableEq

/-- The observable fields of the JSON the tool returns. -/
structure DetectResult where
  significant_change : Bool
  score : ℚ
  change_type : String
deriving Repr, DecidableEq

/-- The handler of `detect_page_change` as a state transition:
`stored` is the fingerprint held for the tab in `sessionStates` (the WeakMap),
`current` the freshly collected `PageState`.  Returns the result together with
the new stored fingerprint.  Seed mode (`params.seed` or no stored state)
stores the state and reports a non-significant "seed" result; otherwise the
component scores, the merged weights, the weighted score, the `≥ threshold`
test and the classification are computed and the fingerprint is replaced. -/
def detectPageChange (parse : String → Option ParsedUrl)
    (stored : Option PageState) (current : PageState) (params : DetectParams) :
    DetectResult × Option PageState :=
  if params.seed ∨ stored = none then
    ({ significant_change := false, score := 0, change_type := "seed" }, some current)
  else
    let changeComponents := calculateNumericalChanges parse stored current
    let weights := mergeWeights params.weights
    let score := calculateWeightedScore changeComponents weights
    let significant := decide (score ≥ params.threshold)
    let changeType := determineChangeType changeComponents
    ({ significant_change := significant, score := score, change_type := changeType },
      some current)

/-! ### Spec-side definition for the URL-score refinement claim

The design document states the non-boundary URL score as
`min(1.0, (1 − pathJaccard) + 0.3·[query changed] + 0.1·[fragment changed])`
"where pathJaccard is the Jaccard similarity of the two sets of path
segments".  This definition follows those words (Jaccard of two empty sets
taken as 1, the similarity of identical sets); it is compared against the
source function above. -/
def specUrlScoreStated (prev curr : ParsedUrl) : ℚ :=
  let prevParts := splitSegments prev.pathname
  let currParts := splitSegments curr.pathname
  let allParts := (prevParts ++ currParts).dedup
  let commonParts := (prevParts.filter (fun p => p ∈ currParts)).dedup
  let jaccard : ℚ :=
    if allParts.length = 0 then 1
    else (commonParts.length : ℚ) / (allParts.length : ℚ)
  let queryChanged : ℚ := if prev.search ≠ curr.search then 3/10 else 0
  let hashChanged : ℚ := if prev.hash ≠ curr.hash then 1/10 else 0
  min 1 ((1 - jaccard) + queryChanged + hashChanged)

/-! ## DOM model shared by the attribute and discovery tools

An element is modelled by the fields the embedded page scripts read:
its attribute list (`getAttribute` returns the first binding or `null`),
DOM properties `hidden`, `offsetParent` (kept as "is non-null"), the computed
style values `display` and `visibility`, `tagName`, `textContent` and the
`href` property.  A page is its elements in document order. -/

structure DomElement where
  attrs : List (String × String)
  tagName : String
  textContent : String
  hrefProp : Option String
  hidden : Bool
  styleDisplay : String
  styleVisibility : String
  hasOffsetParent : Bool
deriving Repr, DecidableEq

/-- `element.getAttribute(name)`: the attribute's value, or `none` for the
JS `null` when the attribute is absent. -/
def getAttr (e : DomElement) (name : String) : Option String :=
  (e.attrs.find? (fun p => p.1 = name)).map Prod.snd

/-- JS truthiness on a nullable string: `null` and `""` are falsy. -/
def jsTruthyStr (o : Option String) : Option String :=
  match o with
  | some s => if s = "" then none else some s
  | none => none

/-! ## browser_get_element_attributes / browser_get_bulk_attributes
(structured-payload revision of `src/tools/attributes.ts`)

The ref path resolves through `snapshot.refLocator`, which lives in the
repository's snapshot library outside the packaged sources.  Modelled from
the spec: resolution tries an exact match of the generic `data-ref` attribute,
then an exact match of the native accessibility-ref (`aria-ref`) attribute,
and fails (`RefNotFound`) otherwise; the thrown engine error is caught at the
tool boundary and surfaced as a textual error payload. -/

/-- Modelled from the spec: `refLocator` resolution for a ref — first element
whose `data-ref` attribute equals the ref, else first element whose
`aria-ref` attribute equals the ref, else failure. -/
def resolveByRef (page : List DomElement) (ref : String) : Option DomElement :=
  match page.find? (fun e => getAttr e "data-ref" = some ref) with
  | some e => some e
  | none => page.find? (fun e => getAttr e "aria-ref" = some ref)

/-- The `isVisible` computation evaluated on the element in the ref path of
`browser_get_element_attributes`:
`!he.hidden && cs.display !== 'none' && cs.visibility !== 'hidden' && he.offsetParent !== null`. -/
def refPathIsVisible (e : DomElement) : Bool :=
  !e.hidden && e.styleDisplay ≠ "none" && e.styleVisibility ≠ "hidden"
    && e.hasOffsetParent

/-- The identical `isVisible` computation in the selector path of
`browser_get_element_attributes`. -/
def selectorPathIsVisible (e : DomElement) : Bool :=
  !e.hidden && e.styleDisplay ≠ "none" && e.styleVisibility ≠ "hidden"
    && e.hasOffsetParent

/-- The identical `isVisible` computation in the per-ref evaluate of
`browser_get_bulk_attributes` (the only field the bulk path returns). -/
def bulkIsVisible (e : DomElement) : Bool :=
  !e.hidden && e.styleDisplay ≠ "none" && e.styleVisibility ≠ "hidden"
    && e.hasOffsetParent

/-- Projection of the single-element attribute payload (the fields this
development reasons about). -/
structure AttrPayload where
  tagName : String
  isVisible : Bool
  extraction_method : String
deriving Repr, DecidableEq

/-- Observable outcome of a `browser_get_element_attributes` call: either the
attribute payload, or the textual error content produced by the catch block /
the missing-parameter throw. -/
inductive SingleResult where
  | payload (attrs : AttrPayload)
  | errorText (msg : String)
deriving Repr, DecidableEq

/-- The handler of `browser_get_element_attributes` (structured-payload
revision).  `if (params.ref)` / `else if (params.selector)` use JS truthiness,
so an empty string falls through; the ref branch resolves via `refLocator`
(`resolveByRef`, spec-modelled) and a resolution failure is caught and
returned as `Element attributes extraction failed: ...`; the selector branch
resolves via the engine's CSS lookup, supplied as `cssResolve`; with neither
parameter the handler throws, which the same catch turns into the error
payload. -/
def getElementAttributes (cssResolve : String → Option DomElement)
    (page : List DomElement) (ref selector : Option String) : SingleResult :=
  match jsTruthyStr ref with
  | some r =>
      match resolveByRef page r with
      | some e =>
          .payload { tagName := e.tagName, isVisible := refPathIsVisible e,
                     extraction_method := "mcp-aria-ref-direct" }
      | none => .errorText "Element attributes extraction failed: ref not resolved"
  | none =>
      match jsTruthyStr selector with
      | some sel =>
          match cssResolve sel with
          | some e =>
              .payload { tagName := e.tagName, isVisible := selectorPathIsVisible e,
                         extraction_method := "css-selector-legacy" }
          | none => .errorText "Element attributes extraction failed: selector not resolved"
      | none =>
          .errorText
            "Element attributes extraction failed: Either ref or selector parameter is required"

/-- One entry of the bulk result: the evaluated attributes on success, or the
catch-block descriptor (error message and ref) on failure. -/
inductive BulkEntry where
  | ok (isVisible : Bool)
  | err (msg ref : String)
deriving Repr, DecidableEq

/-- The body of the bulk loop for one ref: resolve through `refLocator`
(spec-modelled) and evaluate `isVisible`; any failure is caught per ref. -/
def bulkEntryFor (page : List DomElement) (ref : String) : BulkEntry :=
  match resolveByRef page ref with
  | some e => .ok (bulkIsVisible e)
  | none => .err "ref not resolved" ref

/-- Assignment `results[key] = v` on a JS object: an existing key keeps its
position and gets the new value, a new key is appended (JS own-property
insertion order for string keys). -/
def jsRecordSet (l : List (String × BulkEntry)) (key : String) (v : BulkEntry) :
    List (String × BulkEntry) :=
  if l.any (fun p => p.1 = key) then
    l.map (fun p => if p.1 = key then (key, v) else p)
  else l ++ [(key, v)]

/-- The `for (const ref of params.refs)` loop of `browser_get_bulk_attributes`:
each ref is resolved and evaluated inside its own try/catch and written into
the `results` record. -/
def bulkLoop (page : List DomElement) : List String → List (String × BulkEntry) →
    List (String × BulkEntry)
  | [], acc => acc
  | r :: rs, acc => bulkLoop page rs (jsRecordSet acc r (bulkEntryFor page r))

/-- The handler of `browser_get_bulk_attributes`: the `results` record after
the loop, as its ordered key/value entries. -/
def getBulkAttributes (page : List DomElement) (refs : List String) :
    List (String × BulkEntry) :=
  bulkLoop page refs []

/-- First value bound to `key` in an entry list (JS property read). -/
def lookupKey (l : List (String × BulkEntry)) (key : String) : Option BulkEntry :=
  (l.find? (fun p => p.1 = key)).map Prod.snd

/-! ## browser_discover_interactive_refs (discover tool) -/

/-- Membership in `document.querySelectorAll('[data-ref], [aria-ref]')`:
the element carries a `data-ref` or an `aria-ref` attribute. -/
def matchesRefSelector (e : DomElement) : Bool :=
  (getAttr e "data-ref").isSome || (getAttr e "aria-ref").isSome

/-- One candidate row produced by the discover tool's page script. -/
structure Candidate where
  ref : String
  refSource : String
  tag : String
  role : Option String
  text : Option String
  href : Option String
  visible : Bool
  id : Option String
  dataTestId : Option String
  ariaLabel : Option String
deriving Repr, DecidableEq

/-- The loop body of the discover script for one element:
`ref = ariaRef || dataRef` with JS truthiness and `if (!ref) continue`;
`refSource = ariaRef ? 'aria-ref' : 'data-ref'`;
`text = textContent?.trim().slice(0,120) || null`;
`visible = !element.hidden && element.offsetParent !== null`;
`id`/`data-testid`/`aria-label` are added only when truthy. -/
def mkCandidate (e : DomElement) : Option Candidate :=
  let ariaRef := getAttr e "aria-ref"
  let dataRef := getAttr e "data-ref"
  let refJs := match jsTruthyStr ariaRef with
    | some s => some s
    | none => jsTruthyStr dataRef
  match refJs with
  | none => none
  | some r =>
      some { ref := r,
             refSource := if (jsTruthyStr ariaRef).isSome then "aria-ref" else "data-ref",
             tag := e.tagName,
             role := getAttr e "role",
             text := jsTruthyStr (some (takeChars 120 (trimString e.textContent))),
             href := jsTruthyStr e.hrefProp,
             visible := !e.hidden && e.hasOffsetParent,
             id := jsTruthyStr (getAttr e "id"),
             dataTestId := jsTruthyStr (getAttr e "data-testid"),
             ariaLabel := jsTruthyStr (getAttr e "aria-label") }

/-- The `visible` formula of the discover script in isolation
(`!element.hidden && element.offsetParent !== null`). -/
def discoverVisible (e : DomElement) : Bool :=
  !e.hidden && e.hasOffsetParent

/-- The page script of `browser_discover_interactive_refs`:
`querySelectorAll` over the document in document order, `slice(0, limit)`,
then the candidate-building loop which may skip elements with a falsy ref. -/
def discoverInteractiveRefs (page : List DomElement) (limit : Nat) : List Candidate :=
  ((page.filter matchesRefSelector).take limit).filterMap mkCandidate

/-! ## Act-tool element schemas (`src/tools/snapshot.ts`)

The zod refinements that validate the ref/selector pair before a handler
runs.  `hasRef`/`hasSelector` follow
`data.ref && typeof data.ref === 'string' && data.ref.trim().length > 0`. -/

/-- The refine predicate's notion of a supplied target field: present and
non-empty after trimming. -/
def suppliedNonEmpty (o : Option String) : Bool :=
  match o with
  | some s => trimString s ≠ ""
  | none => false

/-- The `.refine` of `elementSchema` (used by `browser_hover`) and of
`clickSchema` (used by `browser_click`): `hasRef || hasSelector`. -/
def elementSchemaAccepts (ref selector : Option String) : Bool :=
  suppliedNonEmpty ref || suppliedNonEmpty selector

/-- `browser_click` target validation (the refine on `clickSchema`). -/
def clickAccepts (ref selector : Option String) : Bool :=
  elementSchemaAccepts ref selector

/-- `browser_hover` target validation (the refine on `elementSchema`). -/
def hoverAccepts (ref selector : Option String) : Bool :=
  elementSchemaAccepts ref selector

/-- `browser_fill` target validation: `fillSchema` extends `baseElementSchema`
without any refine, so every combination of optional `ref`/`selector` passes
schema validation. -/
def fillAccepts (_ref _selector : Option String) : Bool :=
  true

/-- `browser_check` target validation: `checkSchema` also extends
`baseElementSchema` without a refine. -/
def checkAccepts (_ref _selector : Option String) : Bool :=
  true

/-- `browser_select_option` target validation: `selectOptionSchema` also
extends `baseElementSchema` without a refine. -/
def selectOptionAccepts (_ref _selector : Option String) : Bool :=
  true

/-- The claim's acceptance condition, following its words: exactly one of
`ref`/`selector` supplied as a non-empty string. -/
def specExactlyOneTarget (ref selector : Option String) : Bool :=
  (suppliedNonEmpty ref && !suppliedNonEmpty selector) ||
  (!suppliedNonEmpty ref && suppliedNonEmpty selector)

/-! ## Concrete fixtures used by witnesses and counterexamples -/

/-- A URL parser behaving as `new URL` on the two query-only-change fixture
URLs (hostname `a.test`, root path, differing query strings). -/
def parseFixtureQuery : String → Option ParsedUrl := fun s =>
  if s = "https://a.test/?a=1" then some ⟨"a.test", "/", "?a=1", ""⟩
  else if s = "https://a.test/?b=1" then some ⟨"a.test", "/", "?b=1", ""⟩
  else none

/-- A URL parser behaving as `new URL` on the one-segment-path fixture URLs. -/
def parseFixturePath : String → Option ParsedUrl := fun s =>
  if s = "https://a.test/x" then some ⟨"a.test", "/x", "", ""⟩
  else if s = "https://a.test/y" then some ⟨"a.test", "/y", "", ""⟩
  else none

/-- A parser on which every URL fails to parse (every lookup throws). -/
def parseNone : String → Option ParsedUrl := fun _ => none

/-- Fingerprint fixture: baseline state. -/
def stateBase : PageState :=
  { url := "https://a.test/?a=1", title := "T", elemCount := 5,
    domStructureHash := "h", formElementCount := 2, linkElementCount := 0,
    headingCount := 1 }

/-- Fingerprint fixture: same page, only the title changed. -/
def stateTitleChanged : PageState :=
  { url := "https://a.test/?a=1", title := "U", elemCount := 5,
    domStructureHash := "h", formElementCount := 2, linkElementCount := 0,
    headingCount := 1 }

/-- Fingerprint fixture: same page, only the structural hash changed. -/
def stateStructChanged : PageState :=
  { url := "https://a.test/?a=1", title := "T", elemCount := 5,
    domStructureHash := "g", formElementCount := 2, linkElementCount := 0,
    headingCount := 1 }

/-- A bare element carrying no attributes at all. -/
def plainElement : DomElement :=
  { attrs := [], tagName := "div", textContent := "", hrefProp := none,
    hidden := false, styleDisplay := "block", styleVisibility := "visible",
    hasOffsetParent := true }

/-- An element carrying `data-ref` equal to the given ref. -/
def refElement (ref : String) : DomElement :=
  { attrs := [("data-ref", ref)], tagName := "div", textContent := "",
    hrefProp := none, hidden := false, styleDisplay := "block",
    styleVisibility := "visible", hasOffsetParent := true }

/-- An element with `visibility: hidden` computed style but a live offset
parent and `hidden = false`: the discovery formula calls it visible, the
extraction formula does not. -/
def styleHiddenElement : DomElement :=
  { attrs := [("data-ref", "d1")], tagName := "button", textContent := "hello",
    hrefProp := none, hidden := false, styleDisplay := "block",
    styleVisibility := "hidden", hasOffsetParent := true }

/-- The candidate row the discover script produces for
`styleHiddenElement`. -/
def styleHiddenCandidate : Candidate :=
  { ref := "d1", refSource := "data-ref", tag := "button", role := none,
    text := some "hello", href := none, visible := true, id := none,
    dataTestId := none, ariaLabel := none }

/-- Bulk fixture page: elements for refs `r1` and `r3` exist, nothing for
`r2`. -/
def bulkFixturePage : List DomElement :=
  [refElement "r1", refElement "r3"]

/-- Bulk fixture request: three pairwise distinct refs, the middle one
unresolvable. -/
def bulkFixtureRefs : List String :=
  ["r1", "r2", "r3"]

/-- Discovery fixture page: two ref-carrying elements around a bare one. -/
def discoverFixturePage : List DomElement :=
  [refElement "r1", plainElement, styleHiddenElement, refElement "r9"]

/-- Discovery fixture page with a different tail beyond the first two
ref-carrying elements. -/
def discoverFixturePageAlt : List DomElement :=
  [plainElement, refElement "r1", styleHiddenElement, refElement "zz",
    refElement "zz2"]

/-! ## Theorems -/

/-- C9: in attribute extraction (single-element via ref, single-element via
selector, and bulk), the computed `isVisible` flag of an element is true if
and only if the element is not hidden, its computed display is not `none`,
its computed visibility is not `hidden`, and it has a non-null offset parent;
all three extraction sites compute the same flag. -/
theorem claim9_isVisible_iff (e : DomElement) :
    (refPathIsVisible e = true ↔
      (e.hidden = false ∧ e.styleDisplay ≠ "none" ∧ e.styleVisibility ≠ "hidden"
        ∧ e.hasOffsetParent = true)) ∧
    selectorPathIsVisible e = refPathIsVisible e ∧
    bulkIsVisible e = refPathIsVisible e := by
  refine ⟨?_, rfl, rfl⟩
  simp [refPathIsVisible, Bool.and_eq_true, and_assoc]

/-- C10: the discover-path `visible` flag of every returned candidate is
computed solely from the element's `hidden` property and its `offsetParent`
(computed display and visibility are not consulted), so it can disagree with
the extraction-path `isVisible` flag on an element styled
`visibility: hidden` — witnessed concretely by `styleHiddenElement`. -/
theorem claim10_discover_visible_flag :
    (∀ (e : DomElement) (c : Candidate), mkCandidate e = some c →
      c.visible = (!e.hidden && e.hasOffsetParent)) ∧
    (∀ (attrs : List (String × String)) (tag text : String) (href : Option String)
      (hidden : Bool) (d v d2 v2 : String) (off : Bool),
      discoverVisible ⟨attrs, tag, text, href, hidden, d, v, off⟩
        = discoverVisible ⟨attrs, tag, text, href, hidden, d2, v2, off⟩) ∧
    discoverVisible styleHiddenElement = true ∧
    bulkIsVisible styleHiddenElement = false := by
  refine ⟨?_, ?_, by decide, by decide⟩
  · intro e c h
    unfold mkCandidate at h
    dsimp only at h
    split at h
    · exact absurd h (by simp)
    · cases h
      rfl
  · intro attrs tag text href hidden d v d2 v2 off
    rfl

/-- C10 witness: on the concrete `styleHiddenElement` the discover script
produces `styleHiddenCandidate`, and the theorem yields that its `visible`
flag equals the hidden/offset-parent formula (here `true`). -/
theorem claim10_witness :
    mkCandidate styleHiddenElement = some styleHiddenCandidate ∧
    styleHiddenCandidate.visible
      = (!styleHiddenElement.hidden && styleHiddenElement.hasOffsetParent) :=
  ⟨by decide,
    claim10_discover_visible_flag.1 styleHiddenElement styleHiddenCandidate (by decide)⟩

/-- C7 counterexample: the claim's "exactly one of ref/selector" rule fails
on the code in both directions — `browser_click` accepts a call supplying
both a non-empty ref and a non-empty selector, and `browser_fill` (whose
schema carries no refinement) accepts a call supplying neither. -/
theorem claim7_counterexample :
    clickAccepts (some "e1") (some "#main") = true ∧
    specExactlyOneTarget (some "e1") (some "#main") = false ∧
    fillAccepts none none = true := by
  decide

/-- C7 amended: `browser_click` and `browser_hover` accept a target exactly
when at least one of ref/selector is supplied as a string that is non-empty
after trimming (supplying both is accepted), and reject a call supplying
neither at schema validation; `browser_fill`, `browser_check` and
`browser_select_option` extend the base schema without the refinement and
accept every combination, including neither. -/
theorem claim7_amended (r s : Option String) :
    (clickAccepts r s = true ↔
      (suppliedNonEmpty r = true ∨ suppliedNonEmpty s = true)) ∧
    (hoverAccepts r s = true ↔
      (suppliedNonEmpty r = true ∨ suppliedNonEmpty s = true)) ∧
    clickAccepts none none = false ∧
    hoverAccepts none none = false ∧
    fillAccepts r s = true ∧
    checkAccepts r s = true ∧
    selectOptionAccepts r s = true := by
  refine ⟨?_, ?_, by decide, by decide, rfl, rfl, rfl⟩ <;>
    simp [clickAccepts, hoverAccepts, elementSchemaAccepts]

/-- C5: a seed call (and a detect call with no stored fingerprint) stores the
current `PageState` as the tab's fingerprint and reports
`significant_change = false` with score 0 and type "seed" unconditionally;
seeding twice in a row therefore yields `significant_change = false` both
times, for every page content. -/
theorem claim5_seed_idempotent (parse : String → Option ParsedUrl)
    (stored : Option PageState) (current : PageState) (params : DetectParams)
    (h : params.seed = true ∨ stored = none) :
    detectPageChange parse stored current params
      = ({ significant_change := false, score := 0, change_type := "seed" },
          some current) ∧
    ∀ (current2 : PageState) (params2 : DetectParams), params2.seed = true →
      (detectPageChange parse
        (detectPageChange parse stored current params).2 current2 params2).1
        = { significant_change := false, score := 0, change_type := "seed" } := by
  have h1 : detectPageChange parse stored current params
      = ({ significant_change := false, score := 0, change_type := "seed" },
          some current) := by
    unfold detectPageChange
    rcases h with h | h <;> simp [h]
  refine ⟨h1, ?_⟩
  intro current2 params2 h2
  rw [h1]
  unfold detectPageChange
  simp [h2]

/-- C5 witness: two consecutive seed calls on concrete page states both
report a non-significant change. -/
theorem claim5_witness :
    (({ seed := true } : DetectParams).seed = true ∨
      (some stateBase : Option PageState) = none) ∧
    (detectPageChange parseNone (some stateBase) stateBase { seed := true }).1
      = { significant_change := false, score := 0, change_type := "seed" } ∧
    (detectPageChange parseNone
        (detectPageChange parseNone (some stateBase) stateBase { seed := true }).2
        stateTitleChanged { seed := true }).1
      = { significant_change := false, score := 0, change_type := "seed" } := by
  have h := claim5_seed_idempotent parseNone (some stateBase) stateBase
    { seed := true } (Or.inl rfl)
  exact ⟨Or.inl rfl, by rw [h.1], h.2 stateTitleChanged { seed := true } rfl⟩

/-- C4: for a detect call with a stored fingerprint (non-seed),
`significant_change` holds if and only if the weighted sum of the six
component scores — weights being the defaults overridden per call — is
greater than or equal to the threshold (closed interval), and the reported
score is exactly that weighted sum. -/
theorem claim4_threshold_closed (parse : String → Option ParsedUrl)
    (prev current : PageState) (params : DetectParams)
    (h : params.seed = false) :
    (detectPageChange parse (some prev) current params).1.score
      = calculateWeightedScore
          (calculateNumericalChanges parse (some prev) current)
          (mergeWeights params.weights) ∧
    ((detectPageChange parse (some prev) current params).1.significant_change = true
      ↔ calculateWeightedScore
          (calculateNumericalChanges parse (some prev) current)
          (mergeWeights params.weights) ≥ params.threshold) := by
  unfold detectPageChange
  simp [h]

/-- C4 witness: a title-only change scores exactly
`0.15 = DEFAULT_WEIGHTS.title`; with `threshold = 0.15` the weighted score
equals the threshold and the change is reported as significant. -/
theorem claim4_witness :
    ({ threshold := 15/100 } : DetectParams).seed = false ∧
    calculateWeightedScore
        (calculateNumericalChanges parseNone (some stateBase) stateTitleChanged)
        (mergeWeights ({ threshold := 15/100 } : DetectParams).weights)
      = 15/100 ∧
    (detectPageChange parseNone (some stateBase) stateTitleChanged
        { threshold := 15/100 }).1.significant_change = true := by
  have h := claim4_threshold_closed parseNone stateBase stateTitleChanged
    { threshold := 15/100 } rfl
  have hscore : calculateWeightedScore
      (calculateNumericalChanges parseNone (some stateBase) stateTitleChanged)
      (mergeWeights ({ threshold := 15/100 } : DetectParams).weights)
      = 15/100 := by
    simp [calculateNumericalChanges, calculateUrlChangeScore, parseNone,
      stateBase, stateTitleChanged, calculateWeightedScore, mergeWeights,
      DEFAULT_WEIGHTS, DetectParams.weights]
  exact ⟨rfl, hscore, h.2.mpr (le_of_eq hscore.symm)⟩

/-- C6: for a detect call with a stored fingerprint (non-seed), the reported
`change_type` follows the fixed priority order: URL component > 0.7 →
"navigation"; else structural-hash or form component > 0.5 → "structural";
else title component > 0 or element-count component > 0.3 → "content";
else "none" — each label characterised by its guard and the negation of all
higher-priority guards. -/
theorem claim6_change_type_priority (parse : String → Option ParsedUrl)
    (prev current : PageState) (params : DetectParams)
    (h : params.seed = false) :
    ((detectPageChange parse (some prev) current params).1.change_type = "navigation"
      ↔ (calculateNumericalChanges parse (some prev) current).url > 7/10) ∧
    ((detectPageChange parse (some prev) current params).1.change_type = "structural"
      ↔ ¬ (calculateNumericalChanges parse (some prev) current).url > 7/10 ∧
        ((calculateNumericalChanges parse (some prev) current).domStructure > 5/10
          ∨ (calculateNumericalChanges parse (some prev) current).formElements > 5/10)) ∧
    ((detectPageChange parse (some prev) current params).1.change_type = "content"
      ↔ ¬ (calculateNumericalChanges parse (some prev) current).url > 7/10 ∧
        ¬ ((calculateNumericalChanges parse (some prev) current).domStructure > 5/10
          ∨ (calculateNumericalChanges parse (some prev) current).formElements > 5/10) ∧
        ((calculateNumericalChanges parse (some prev) current).title > 0
          ∨ (calculateNumericalChanges parse (some prev) current).elem > 3/10)) ∧
    ((detectPageChange parse (some prev) current params).1.change_type = "none"
      ↔ ¬ (calculateNumericalChanges parse (some prev) current).url > 7/10 ∧
        ¬ ((calculateNumericalChanges parse (some prev) current).domStructure > 5/10
          ∨ (calculateNumericalChanges parse (some prev) current).formElements > 5/10) ∧
        ¬ ((calculateNumericalChanges parse (some prev) current).title > 0
          ∨ (calculateNumericalChanges parse (some prev) current).elem > 3/10)) := by
  have hct : (detectPageChange parse (some prev) current params).1.change_type
      = determineChangeType (calculateNumericalChanges parse (some prev) current) := by
    unfold detectPageChange
    simp [h]
  rw [hct]
  unfold determineChangeType
  split
  · rename_i h1
    simp [h1]
  · rename_i h1
    split
    · rename_i h2
      simp [h1, h2]
    · rename_i h2
      split
      · rename_i h3
        simp [h1, h2, h3]
      · rename_i h3
        simp [h1, h2, h3]

/-- C6 witness: a structural-hash-only change (URL unchanged) is classified
"structural": the URL guard fails and the structural guard fires. -/
theorem claim6_witness :
    (({} : DetectParams).seed = false) ∧
    (detectPageChange parseNone (some stateBase) stateStructChanged
        ({} : DetectParams)).1.change_type = "structural" := by
  have h := claim6_change_type_priority parseNone stateBase stateStructChanged
    ({} : DetectParams) rfl
  refine ⟨rfl, h.2.1.mpr ⟨?_, Or.inl ?_⟩⟩ <;>
    · simp [calculateNumericalChanges, calculateUrlChangeScore, parseNone,
        stateBase, stateStructChanged]
      norm_num

/-- C8: every discover-refs call returns at most `max` candidates; the list
is in document order (a sublist of the candidate rows of the whole document);
and truncation is deterministic — the result depends only on the first `max`
elements, in document order, that carry a `data-ref` or `aria-ref`
attribute. -/
theorem claim8_discover_truncation (page : List DomElement) (limit : Nat) :
    (discoverInteractiveRefs page limit).length ≤ limit ∧
    List.Sublist (discoverInteractiveRefs page limit)
      ((page.filter matchesRefSelector).filterMap mkCandidate) ∧
    ∀ page2 : List DomElement,
      (page.filter matchesRefSelector).take limit
        = (page2.filter matchesRefSelector).take limit →
      discoverInteractiveRefs page limit = discoverInteractiveRefs page2 limit := by
  refine ⟨?_, ?_, ?_⟩
  · exact le_trans
      (List.length_filterMap_le mkCandidate ((page.filter matchesRefSelector).take limit))
      ((page.filter matchesRefSelector).length_take_le limit)
  · exact (List.take_sublist limit (page.filter matchesRefSelector)).filterMap mkCandidate
  · intro page2 h
    unfold discoverInteractiveRefs
    rw [h]

/-- C8 witness: two documents agreeing on their first two ref-carrying
elements (but differing beyond) produce the same two candidates under
`max = 2`, and the bound holds. -/
theorem claim8_witness :
    (discoverFixturePage.filter matchesRefSelector).take 2
      = (discoverFixturePageAlt.filter matchesRefSelector).take 2 ∧
    (discoverInteractiveRefs discoverFixturePage 2).length ≤ 2 ∧
    discoverInteractiveRefs discoverFixturePage 2
      = discoverInteractiveRefs discoverFixturePageAlt 2 := by
  have h := claim8_discover_truncation discoverFixturePage 2
  exact ⟨by decide, h.1, h.2.2 discoverFixturePageAlt (by decide)⟩

/-- C1: in `browser_get_element_attributes` (structured-payload revision,
with `refLocator` resolution modelled from the design document as exact
`data-ref` / `aria-ref` attribute match), a call supplying a ref that no
element of the page carries, with no CSS selector fallback, yields the
textual error payload — for every page, so in particular no digit-parsing
numeric-index fallback into the flat element list ever produces a success
(compare the deprecated first revision, whose lines 49–59 did exactly
that). -/
theorem claim1_ref_resolution_fails_closed
    (cssResolve : String → Option DomElement) (page : List DomElement)
    (ref : String) (href : ref ≠ "")
    (hnone : ∀ e ∈ page, getAttr e "data-ref" ≠ some ref
      ∧ getAttr e "aria-ref" ≠ some ref) :
    getElementAttributes cssResolve page (some ref) none
      = .errorText "Element attributes extraction failed: ref not resolved" := by
  have hres : resolveByRef page ref = none := by
    unfold resolveByRef
    have h1 : page.find? (fun e => getAttr e "data-ref" = some ref) = none :=
      List.find?_eq_none.mpr (fun e he => by simpa using (hnone e he).1)
    have h2 : page.find? (fun e => getAttr e "aria-ref" = some ref) = none :=
      List.find?_eq_none.mpr (fun e he => by simpa using (hnone e he).2)
    rw [h1, h2]
  unfold getElementAttributes
  simp [jsTruthyStr, href, hres]

/-- C1 witness: a page of three bare elements and the ref `"e2"` — a page on
which the deprecated digit-index fallback would have returned the element at
index 2 — yields the error payload. -/
theorem claim1_witness :
    ("e2" : String) ≠ "" ∧
    (∀ e ∈ [plainElement, plainElement, plainElement],
      getAttr e "data-ref" ≠ some "e2" ∧ getAttr e "aria-ref" ≠ some "e2") ∧
    getElementAttributes (fun _ => none) [plainElement, plainElement, plainElement]
        (some "e2") none
      = .errorText "Element attributes extraction failed: ref not resolved" :=
  ⟨by decide, by decide,
    claim1_ref_resolution_fails_closed (fun _ => none)
      [plainElement, plainElement, plainElement] "e2" (by decide) (by decide)⟩

/-! ### Helper lemmas for the bulk-resolution record -/

theorem lookupKey_map_set_self (l : List (String × BulkEntry)) (k : String)
    (v : BulkEntry) (h : l.any (fun p => p.1 = k) = true) :
    lookupKey (l.map (fun p => if p.1 = k then (k, v) else p)) k = some v := by
  induction l with
  | nil => simp at h
  | cons p t ih =>
    by_cases hp : p.1 = k
    · simp only [List.map_cons, if_pos hp, lookupKey]
      rw [List.find?_cons_of_pos _ (by simp)]
      rfl
    · have ht : t.any (fun p => p.1 = k) = true := by
        simp only [List.any_cons, Bool.or_eq_true, decide_eq_true_eq] at h
        exact h.resolve_left hp
      simp only [List.map_cons, if_neg hp, lookupKey] at ih ⊢
      rw [List.find?_cons_of_neg _ (by simp [hp])]
      exact ih ht

theorem lookupKey_map_set_other (l : List (String × BulkEntry)) (k k2 : String)
    (v : BulkEntry) (h : k2 ≠ k) :
    lookupKey (l.map (fun p => if p.1 = k then (k, v) else p)) k2 = lookupKey l k2 := by
  induction l with
  | nil => rfl
  | cons p t ih =>
    by_cases hp : p.1 = k
    · have hpk2 : ¬ p.1 = k2 := by rw [hp]; exact fun hc => h hc.symm
      simp only [List.map_cons, if_pos hp, lookupKey] at ih ⊢
      rw [List.find?_cons_of_neg _ (by simp; exact fun hc => h hc.symm),
        List.find?_cons_of_neg _ (by simp [hpk2])]
      exact ih
    · simp only [List.map_cons, if_neg hp, lookupKey] at ih ⊢
      by_cases hpk2 : p.1 = k2
      · rw [List.find?_cons_of_pos _ (by simp [hpk2]),
          List.find?_cons_of_pos _ (by simp [hpk2])]
      · rw [List.find?_cons_of_neg _ (by simp [hpk2]),
          List.find?_cons_of_neg _ (by simp [hpk2])]
        exact ih

theorem lookupKey_eq_none (l : List (String × BulkEntry)) (k : String)
    (h : l.any (fun p => p.1 = k) = false) : lookupKey l k = none := by
  unfold lookupKey
  rw [List.find?_eq_none.mpr]
  · rfl
  · intro p hp hc
    have h2 : l.any (fun p => p.1 = k) = true :=
      List.any_eq_true.mpr ⟨p, hp, hc⟩
    rw [h] at h2
    exact Bool.false_ne_true h2

theorem lookupKey_jsRecordSet (l : List (String × BulkEntry)) (k k2 : String)
    (v : BulkEntry) :
    lookupKey (jsRecordSet l k v) k2 = if k2 = k then some v else lookupKey l k2 := by
  unfold jsRecordSet
  by_cases hany : l.any (fun p => p.1 = k) = true
  · rw [if_pos hany]
    by_cases hk : k2 = k
    · subst hk
      rw [if_pos rfl]
      exact lookupKey_map_set_self l k2 v hany
    · rw [if_neg hk]
      exact lookupKey_map_set_other l k k2 v hk
  · rw [if_neg hany]
    have hnone : lookupKey l k = none :=
      lookupKey_eq_none l k (Bool.eq_false_iff.mpr hany)
    have hfind : l.find? (fun p => p.1 = k) = none := by
      unfold lookupKey at hnone
      cases hf : l.find? (fun p => p.1 = k) with
      | none => rfl
      | some p => rw [hf] at hnone; simp at hnone
    unfold lookupKey
    rw [List.find?_append]
    by_cases hk : k2 = k
    · subst hk
      rw [hfind, Option.none_or, if_pos rfl]
      rw [List.find?_cons_of_pos _ (by simp)]
      rfl
    · rw [if_neg hk]
      cases hf : l.find? (fun p => p.1 = k2) with
      | none =>
        rw [Option.none_or, List.find?_cons_of_neg _ (by simp; exact fun hc => hk hc.symm)]
        rfl
      | some p =>
        rw [Option.or_some ..]

theorem keys_jsRecordSet (l : List (String × BulkEntry)) (k : String)
    (v : BulkEntry) :
    (jsRecordSet l k v).map Prod.fst
      = if l.any (fun p => p.1 = k) then l.map Prod.fst
        else l.map Prod.fst ++ [k] := by
  unfold jsRecordSet
  by_cases hany : l.any (fun p => p.1 = k) = true
  · rw [if_pos hany, if_pos hany, List.map_map]
    congr 1
    funext p
    by_cases hp : p.1 = k
    · simp [hp]
    · simp [hp]
  · rw [if_neg hany, if_neg hany, List.map_append]
    rfl

theorem bulkLoop_lookup (page : List DomElement) (refs : List String)
    (acc : List (String × BulkEntry)) (r : String) :
    lookupKey (bulkLoop page refs acc) r
      = if r ∈ refs then some (bulkEntryFor page r) else lookupKey acc r := by
  induction refs generalizing acc with
  | nil => simp [bulkLoop]
  | cons r2 rs ih =>
    unfold bulkLoop
    rw [ih]
    by_cases hmem : r ∈ rs
    · rw [if_pos hmem, if_pos (List.mem_cons.mpr (Or.inr hmem))]
    · rw [if_neg hmem, lookupKey_jsRecordSet]
      by_cases hr : r = r2
      · subst hr
        rw [if_pos rfl, if_pos (List.mem_cons.mpr (Or.inl rfl))]
      · rw [if_neg hr, if_neg (by simp [hr, hmem])]

theorem bulkLoop_keys (page : List DomElement) (refs : List String)
    (acc : List (String × BulkEntry)) (hnd : refs.Nodup)
    (hdisj : ∀ r ∈ refs, ∀ p ∈ acc, p.1 ≠ r) :
    (bulkLoop page refs acc).map Prod.fst = acc.map Prod.fst ++ refs := by
  induction refs generalizing acc with
  | nil => simp [bulkLoop]
  | cons r2 rs ih =>
    unfold bulkLoop
    have hanyf : acc.any (fun p => p.1 = r2) = false := by
      rw [Bool.eq_false_iff]
      intro hc
      rcases List.any_eq_true.mp hc with ⟨p, hp, hpr⟩
      exact hdisj r2 (List.mem_cons.mpr (Or.inl rfl)) p hp (by simpa using hpr)
    have hset : jsRecordSet acc r2 (bulkEntryFor page r2) = acc ++ [(r2, bulkEntryFor page r2)] := by
      unfold jsRecordSet
      rw [if_neg (Bool.eq_false_iff.mp hanyf)]
    have hdisj2 : ∀ r ∈ rs, ∀ p ∈ acc ++ [(r2, bulkEntryFor page r2)], p.1 ≠ r := by
      intro r hr p hp
      rcases List.mem_append.mp hp with hp | hp
      · exact hdisj r (List.mem_cons.mpr (Or.inr hr)) p hp
      · have hpe : p = (r2, bulkEntryFor page r2) := by simpa using hp
        rw [hpe]
        intro hc
        have hcr : r2 = r := hc
        exact (List.nodup_cons.mp hnd).1 (hcr ▸ hr)
    rw [hset, ih (acc ++ [(r2, bulkEntryFor page r2)]) (List.nodup_cons.mp hnd).2 hdisj2]
    rw [List.map_append]
    simp

/-- C2: bulk attribute resolution evaluates each requested ref independently:
for every page and every ref in the request, the result binds that ref to the
outcome of resolving that ref alone (an error entry exactly when it fails to
resolve, a payload entry otherwise, so one bad ref never aborts the batch);
and for a request of pairwise-distinct refs — as denoted by the claim's list
`[r1, ..., rn]` — the result has exactly one entry per requested ref, in
request order. -/
theorem claim2_bulk_isolated (page : List DomElement) (refs : List String) :
    (∀ r ∈ refs, lookupKey (getBulkAttributes page refs) r
      = some (bulkEntryFor page r)) ∧
    (refs.Nodup → (getBulkAttributes page refs).map Prod.fst = refs) := by
  constructor
  · intro r hr
    unfold getBulkAttributes
    rw [bulkLoop_lookup, if_pos hr]
  · intro hnd
    unfold getBulkAttributes
    rw [bulkLoop_keys page refs [] hnd (fun _ _ p hp => absurd hp (List.not_mem_nil p))]
    rfl

/-- C2 witness: on a page holding elements for `r1` and `r3` only, the
request `[r1, r2, r3]` yields exactly the three entries in request order,
the failing `r2` mapped to its error entry while `r1` and `r3` still carry
payload entries. -/
theorem claim2_witness :
    (getBulkAttributes bulkFixturePage bulkFixtureRefs).map Prod.fst
      = ["r1", "r2", "r3"] ∧
    lookupKey (getBulkAttributes bulkFixturePage bulkFixtureRefs) "r2"
      = some (BulkEntry.err "ref not resolved" "r2") ∧
    lookupKey (getBulkAttributes bulkFixturePage bulkFixtureRefs) "r1"
      = some (BulkEntry.ok true) ∧
    lookupKey (getBulkAttributes bulkFixturePage bulkFixtureRefs) "r3"
      = some (BulkEntry.ok true) := by
  have h := claim2_bulk_isolated bulkFixturePage bulkFixtureRefs
  refine ⟨h.2 (by decide), ?_, ?_, ?_⟩
  · rw [h.1 "r2" (by decide)]; decide
  · rw [h.1 "r1" (by decide)]; decide
  · rw [h.1 "r3" (by decide)]; decide

/-- C3 counterexample: for two URLs on the same host with empty path-segment
sets but different query strings, the source returns 0.0 (the
`allParts.size === 0` early return fires before the query/fragment deltas are
added), while the claim's stated formula
`min(1, (1 − pathJaccard) + 0.3·[query changed] + 0.1·[fragment changed])`
gives 0.3. -/
theorem claim3_counterexample :
    calculateUrlChangeScore parseFixtureQuery "https://a.test/?a=1" "https://a.test/?b=1"
      = 0 ∧
    specUrlScoreStated ⟨"a.test", "/", "?a=1", ""⟩ ⟨"a.test", "/", "?b=1", ""⟩
      = 3/10 ∧
    (0 : ℚ) ≠ 3/10 := by
  refine ⟨by decide, ?_, by norm_num⟩
  have hseg : splitSegments "/" = [] := by decide
  simp only [specUrlScoreStated, hseg]
  simp only [List.append_nil, List.dedup_nil, List.length_nil]
  simp
  norm_num

/-- C3 amended: for previous/current URLs that both parse, the URL component
score is 1.0 when the hostnames differ and 0.0 when the URL strings are
identical; otherwise, when the union of the two path-segment sets is empty
the score is 0.0 regardless of query/fragment changes, and when it is
non-empty the score is
`min(1, (1 − pathJaccard) + 0.3·[query changed] + 0.1·[fragment changed])`. -/
theorem claim3_amended (parse : String → Option ParsedUrl) (u1 u2 : String)
    (p1 p2 : ParsedUrl) (h1 : u1 ≠ "") (h2 : u2 ≠ "")
    (hp1 : parse u1 = some p1) (hp2 : parse u2 = some p2) :
    (p1.hostname ≠ p2.hostname → calculateUrlChangeScore parse u1 u2 = 1) ∧
    (u1 = u2 → calculateUrlChangeScore parse u1 u2 = 0) ∧
    (p1.hostname = p2.hostname → u1 ≠ u2 →
      ((splitSegments p1.pathname ++ splitSegments p2.pathname).dedup.length = 0 →
        calculateUrlChangeScore parse u1 u2 = 0) ∧
      ((splitSegments p1.pathname ++ splitSegments p2.pathname).dedup.length ≠ 0 →
        calculateUrlChangeScore parse u1 u2
          = min 1
              ((1 - (((splitSegments p1.pathname).filter
                    (fun p => p ∈ splitSegments p2.pathname)).dedup.length : ℚ)
                  / (((splitSegments p1.pathname
                      ++ splitSegments p2.pathname).dedup.length : ℚ)))
                + (if p1.search ≠ p2.search then 3/10 else 0)
                + (if p1.hash ≠ p2.hash then 1/10 else 0)))) := by
  have hmain : calculateUrlChangeScore parse u1 u2
      = (if p1.hostname ≠ p2.hostname then (1 : ℚ)
        else if u1 = u2 then 0
        else if ((splitSegments p1.pathname
            ++ splitSegments p2.pathname).dedup.length = 0) then 0
        else min 1
          ((1 - (((splitSegments p1.pathname).filter
              (fun p => p ∈ splitSegments p2.pathname)).dedup.length : ℚ)
            / (((splitSegments p1.pathname
                ++ splitSegments p2.pathname).dedup.length : ℚ)))
            + (if p1.search ≠ p2.search then 3/10 else 0)
            + (if p1.hash ≠ p2.hash then 1/10 else 0))) := by
    unfold calculateUrlChangeScore
    rw [if_neg (by simp [h1, h2]), hp1, hp2]
  rw [hmain]
  refine ⟨?_, ?_, ?_⟩
  · intro hne
    rw [if_pos hne]
  · intro heq
    have hpp : p1 = p2 := by
      rw [heq] at hp1
      rw [hp1] at hp2
      exact Option.some.inj hp2
    rw [if_neg (by simp [hpp]), if_pos heq]
  · intro hhost hne
    rw [if_neg (by simp [hhost]), if_neg hne]
    constructor
    · intro hlen
      rw [if_pos hlen]
    · intro hlen
      rw [if_neg hlen]

/-- C3 witness: one-segment paths `/x` vs `/y` on the same host — the union
of segment sets is the two-element set of x and y, the intersection empty, so the formula
clause applies and the score is `min(1, 1 − 0/2) = 1`. -/
theorem claim3_witness :
    ("https://a.test/x" : String) ≠ "" ∧
    parseFixturePath "https://a.test/x" = some ⟨"a.test", "/x", "", ""⟩ ∧
    parseFixturePath "https://a.test/y" = some ⟨"a.test", "/y", "", ""⟩ ∧
    calculateUrlChangeScore parseFixturePath "https://a.test/x" "https://a.test/y"
      = 1 := by
  have h := claim3_amended parseFixturePath "https://a.test/x" "https://a.test/y"
    ⟨"a.test", "/x", "", ""⟩ ⟨"a.test", "/y", "", ""⟩
    (by decide) (by decide) (by decide) (by decide)
  have h4 := (h.2.2 rfl (by decide)).2 (by decide)
  refine ⟨by decide, by decide, by decide, ?_⟩
  rw [h4]
  have ha : (splitSegments "/x" ++ splitSegments "/y").dedup = ["x", "y"] := by decide
  have hc : ((splitSegments "/x").filter
      (fun p => p ∈ splitSegments "/y")).dedup = [] := by decide
  rw [ha, hc]
  norm_num

end PlaywrightMcp
